import Mathlib

/-!
Shallow embedding of the self-healing pipeline of `app/graph/*.py`
(planner, plan validator, generator, validator, runner).

Modelling conventions, fixed once for the whole file:

* Python JSON-like values (`json.loads` results, plan steps, the
  `State` TypedDict) are modelled by `PyVal`; a Python `dict` is an
  insertion-ordered association list, lookups take the last binding.
* The generative oracle (`chain.invoke(...)` followed by
  `response.content`) is an external boundary (spec §6): it is a
  parameter `oracle : Nat → Except PyExc String` giving, per attempt
  index, either the returned text or the class of the exception the
  invocation raised.  `PyExc` distinguishes the classes that
  `generate_plan_with_llm` catches (`json.JSONDecodeError`,
  `ValueError`, `KeyError`) from any other exception class.
* `json.loads` is embedded as a fuel-based parser `json_loads` for the
  JSON subset the repository exercises (arrays, objects, strings with
  the common escapes, integer numerals, `true`/`false`/`null`); on
  numerals with fractions/exponents it errors where Python would
  return a float.  No claim depends on that corner.
* String primitives (`strip`, `split`, `replace`, `upper`, slicing)
  are given explicit structural definitions over `List Char` so that
  every function in the file evaluates by kernel reduction; they
  follow Python's ASCII behaviour (doc comments note the few spots
  where Python's unicode handling is wider).
* File writes and subprocess launches are recorded as data (the
  written text is returned / put in the state) rather than performed.
-/

set_option maxRecDepth 100000

/-- Python JSON-like values: the result type of `json.loads` and the
value type of the pipeline's `State` dictionary. -/
inductive PyVal where
  | str (s : String)
  | int (n : Int)
  | bool (b : Bool)
  | none
  | list (xs : List PyVal)
  | dict (entries : List (String × PyVal))

/-- Python truthiness (`if not x`): empty string/list/dict, `0`,
`False` and `None` are falsy. -/
def pyFalsy : PyVal → Bool
  | .str s => s = ""
  | .int n => n = 0
  | .bool b => !b
  | .none => true
  | .list xs => xs.isEmpty
  | .dict es => es.isEmpty

/-- Python `str(x)` restricted to the string case; the pipeline's
`State` fields read this way (`objective`, `script_code`,
`script_path`) are strings whenever present, so the other branches are
unreachable in every claim and are rendered as `""`. -/
def pyToStr : PyVal → String
  | .str s => s
  | _ => ""

/-- Last-binding lookup in a Python dict modelled as an association
list (later `dict[k] = v` assignments shadow earlier ones). -/
def pyLookup (entries : List (String × PyVal)) (k : String) : Option PyVal :=
  (entries.reverse.find? (fun e => e.1 = k)).map (fun e => e.2)

/-- `k in d` for a Python dict. -/
def pyHasKey (entries : List (String × PyVal)) (k : String) : Bool :=
  entries.any (fun e => e.1 = k)

/-- The pipeline `State` TypedDict: a Python dict from field names to
values. -/
def StateD : Type := List (String × PyVal)

/-- Lookup of a state field.  A Python dict has unique keys, and every
state in this development is built by `stSet` from duplicate-free
literals, so first-occurrence lookup (matching `stSet`'s in-place
update) is exact. -/
def stLookup (st : StateD) (k : String) : Option PyVal :=
  (st.find? (fun e => e.1 = k)).map (fun e => e.2)

/-- `state.get(k, default)`. -/
def stGetD (st : StateD) (k : String) (d : PyVal) : PyVal :=
  match stLookup st k with
  | some v => v
  | Option.none => d

/-- `k in state` / field presence. -/
def stHas (st : StateD) (k : String) : Bool :=
  pyHasKey st k

/-- `state[k] = v`: update in place if the key exists, else append
(Python dict assignment keeps the original key position; only key
membership and lookup results matter to the claims, both of which this
models exactly). -/
def stSet (st : StateD) (k : String) (v : PyVal) : StateD :=
  match st with
  | [] => [(k, v)]
  | (k', v') :: rest =>
      if k' = k then (k', v) :: rest else (k', v') :: stSet rest k v

/-- Characters of Python's regex `\s` (ASCII). -/
def pyIsSpace (c : Char) : Bool :=
  c = ' ' || c = '\t' || c = '\n' || c = '\r' || c = '\x0c' || c = '\x0b'

/-- `needle` is a leading segment of `hay` (over characters). -/
def listIsPref : List Char → List Char → Bool
  | [], _ => true
  | _ :: _, [] => false
  | a :: as, b :: bs => a = b && listIsPref as bs

/-- Python's `needle in hay` substring test (over characters). -/
def listHas (needle : List Char) : List Char → Bool
  | [] => needle.isEmpty
  | c :: rest => listIsPref needle (c :: rest) || listHas needle rest

/-- Python's `needle in hay` substring test on strings. -/
def strHas (hay needle : String) : Bool :=
  listHas needle.data hay.data

/-- Python `s.strip()` (ASCII whitespace; Python also strips a few
unicode spaces that never occur in this pipeline's strings). -/
def pyStrip (s : String) : String :=
  String.mk (((s.data.dropWhile pyIsSpace).reverse.dropWhile pyIsSpace).reverse)

/-- Python `s.startswith(pre)`. -/
def pyStartsWith (s pre : String) : Bool :=
  listIsPref pre.data s.data

/-- Python `s.endswith(suf)`. -/
def pyEndsWith (s suf : String) : Bool :=
  listIsPref suf.data.reverse s.data.reverse

/-- Python `s[n:]` (slicing off the first `n` characters). -/
def pyDropN (s : String) (n : Nat) : String :=
  String.mk (s.data.drop n)

/-- Python `s[:n]` (the first `n` characters). -/
def pyTakeN (s : String) (n : Nat) : String :=
  String.mk (s.data.take n)

/-- Python `s[:-n]` (dropping the last `n` characters). -/
def pyDropRightN (s : String) (n : Nat) : String :=
  String.mk (s.data.take (s.data.length - n))

/-- Python `len(s)`. -/
def pyLen (s : String) : Nat :=
  s.data.length

/-- ASCII uppercasing of one character. -/
def asciiUpperChar (c : Char) : Char :=
  if 'a' ≤ c && c ≤ 'z' then Char.ofNat (c.toNat - 32) else c

/-- Python `s.upper()` (ASCII; the compared prefixes `VALID`/`INVALID`
are ASCII). -/
def pyUpper (s : String) : String :=
  String.mk (s.data.map asciiUpperChar)

/-- `s.replace(pat, rep)` over characters, all occurrences, scanning
left to right; fuel is the input length (each step consumes at least
one input character for the non-empty patterns used here). -/
def listReplace (pat rep : List Char) : Nat → List Char → List Char
  | 0, cs => cs
  | _ + 1, [] => []
  | fuel+1, c :: rest =>
      if listIsPref pat (c :: rest) then
        rep ++ listReplace pat rep fuel ((c :: rest).drop pat.length)
      else c :: listReplace pat rep fuel rest

/-- Python `s.replace(pat, rep)`. -/
def pyReplace (s pat rep : String) : String :=
  String.mk (listReplace pat.data rep.data s.data.length s.data)

/-- Split on newline characters (Python `s.split("\n")`). -/
def splitNl : List Char → List (List Char)
  | [] => [[]]
  | c :: rest =>
      match splitNl rest with
      | [] => [[c]]
      | l :: ls => if c = '\n' then [] :: l :: ls else (c :: l) :: ls

/-- Join with newline characters (Python `"\n".join(ls)`). -/
def joinNl : List (List Char) → List Char
  | [] => []
  | [l] => l
  | l :: ls => l ++ '\n' :: joinNl ls

/-- The decimal digits of `n`, most significant first (fuel-based;
`natToStr` supplies `n + 1`, always enough since `n` shrinks by a
factor of ten per step). -/
def natToStrAux : Nat → Nat → List Char
  | 0, _ => []
  | fuel+1, n =>
      if n < 10 then [Char.ofNat ('0'.toNat + n)]
      else natToStrAux fuel (n / 10) ++ [Char.ofNat ('0'.toNat + n % 10)]

/-- Python `str(n)` for a natural number. -/
def natToStr (n : Nat) : String :=
  String.mk (natToStrAux (n + 1) n)

/-- Python `str(n)` / `json.dumps(n)` for an integer. -/
def intToStr (n : Int) : String :=
  if n < 0 then "-" ++ natToStr n.natAbs else natToStr n.natAbs

/-- Body of a JSON string after the opening quote: accumulate until
the closing quote, handling the common escapes; raw control characters
are rejected as `json.loads` does in strict mode. -/
def jparseStrAux (acc : List Char) : List Char → Option (String × List Char)
  | [] => Option.none
  | '\\' :: e :: rest =>
      match e with
      | '"' => jparseStrAux ( '"' :: acc) rest
      | '\\' => jparseStrAux ( '\\' :: acc) rest
      | '/' => jparseStrAux ( '/' :: acc) rest
      | 'n' => jparseStrAux ( '\n' :: acc) rest
      | 't' => jparseStrAux ( '\t' :: acc) rest
      | 'r' => jparseStrAux ( '\r' :: acc) rest
      | _ => Option.none
  | c :: rest =>
      if c = '"' then some (String.mk acc.reverse, rest)
      else if c < ' ' then Option.none
      else jparseStrAux (c :: acc) rest

/-- Digits of a JSON integer numeral. -/
def jparseDigits (acc : Int) : List Char → (Int × List Char)
  | [] => (acc, [])
  | c :: rest =>
      if c.isDigit then jparseDigits (acc * 10 + (c.toNat - '0'.toNat : Nat)) rest
      else (acc, c :: rest)

mutual

/-- One JSON value (fuel-based recursion; fuel only bounds nesting of
the grammar, `json_loads` supplies enough for its input). -/
def jparseVal : Nat → List Char → Option (PyVal × List Char)
  | 0, _ => Option.none
  | fuel+1, cs =>
      match cs.dropWhile pyIsSpace with
      | [] => Option.none
      | c :: rest =>
          if c = '[' then
            match rest.dropWhile pyIsSpace with
            | ']' :: rest₁ => some (.list [], rest₁)
            | cs₁ =>
                match jparseItems fuel cs₁ with
                | some (vs, cs₂) => some (.list vs, cs₂)
                | Option.none => Option.none
          else if c = '\x7b' then
            match rest.dropWhile pyIsSpace with
            | '\x7d' :: rest₁ => some (.dict [], rest₁)
            | cs₁ =>
                match jparseMembers fuel cs₁ with
                | some (es, cs₂) => some (.dict es, cs₂)
                | Option.none => Option.none
          else if c = '"' then
            match jparseStrAux [] rest with
            | some (s, cs₁) => some (.str s, cs₁)
            | Option.none => Option.none
          else if c = '-' then
            match rest with
            | d :: _ =>
                if d.isDigit then
                  let (n, cs₁) := jparseDigits 0 rest
                  match cs₁ with
                  | '.' :: _ => Option.none
                  | 'e' :: _ => Option.none
                  | 'E' :: _ => Option.none
                  | _ => some (.int (-n), cs₁)
                else Option.none
            | [] => Option.none
          else if c.isDigit then
            let (n, cs₁) := jparseDigits 0 (c :: rest)
            match cs₁ with
            | '.' :: _ => Option.none
            | 'e' :: _ => Option.none
            | 'E' :: _ => Option.none
            | _ => some (.int n, cs₁)
          else if listIsPref "true".data (c :: rest) then
            some (.bool true, rest.drop 3)
          else if listIsPref "false".data (c :: rest) then
            some (.bool false, rest.drop 4)
          else if listIsPref "null".data (c :: rest) then
            some (.none, rest.drop 3)
          else Option.none

/-- Elements of a non-empty JSON array, up to and including `]`. -/
def jparseItems : Nat → List Char → Option (List PyVal × List Char)
  | 0, _ => Option.none
  | fuel+1, cs =>
      match jparseVal fuel cs with
      | Option.none => Option.none
      | some (v, cs₁) =>
          match cs₁.dropWhile pyIsSpace with
          | ',' :: cs₂ =>
              match jparseItems fuel cs₂ with
              | some (vs, cs₃) => some (v :: vs, cs₃)
              | Option.none => Option.none
          | ']' :: cs₂ => some ([v], cs₂)
          | _ => Option.none

/-- Members of a non-empty JSON object, up to and including the
closing brace. -/
def jparseMembers : Nat → List Char → Option (List (String × PyVal) × List Char)
  | 0, _ => Option.none
  | fuel+1, cs =>
      match cs.dropWhile pyIsSpace with
      | '"' :: cs₁ =>
          match jparseStrAux [] cs₁ with
          | Option.none => Option.none
          | some (k, cs₂) =>
              match cs₂.dropWhile pyIsSpace with
              | ':' :: cs₃ =>
                  match jparseVal fuel cs₃ with
                  | Option.none => Option.none
                  | some (v, cs₄) =>
                      match cs₄.dropWhile pyIsSpace with
                      | ',' :: cs₅ =>
                          match jparseMembers fuel cs₅ with
                          | some (es, cs₆) => some ((k, v) :: es, cs₆)
                          | Option.none => Option.none
                      | '\x7d' :: cs₅ => some ([(k, v)], cs₅)
                      | _ => Option.none
              | _ => Option.none
      | _ => Option.none

end

/-- `json.loads`: parse one JSON document, requiring only whitespace
after it; `Option.none` stands for `json.JSONDecodeError`. -/
def json_loads (s : String) : Option PyVal :=
  match jparseVal (2 * s.data.length + 8) s.data with
  | some (v, rest) =>
      if (rest.dropWhile pyIsSpace).isEmpty then some v else Option.none
  | Option.none => Option.none

/-- One left-to-right pass of Python's
`re.sub(r',\s*<close>', '<close>', s)`: a comma followed by optional
whitespace and the closing bracket collapses to the bracket; scanning
resumes after the replacement.  Fuel is the input length (each step
consumes at least one input character). -/
def rmTrailAux (close : Char) : Nat → List Char → List Char
  | 0, cs => cs
  | _ + 1, [] => []
  | fuel+1, c :: rest =>
      if c = ',' then
        match rest.dropWhile pyIsSpace with
        | c' :: rest' =>
            if c' = close then close :: rmTrailAux close fuel rest'
            else c :: rmTrailAux close fuel rest
        | [] => c :: rmTrailAux close fuel rest
      else c :: rmTrailAux close fuel rest

/-- `re.sub(r',\s*<close>', '<close>', s)` on strings. -/
def pyRmTrailingCommas (close : Char) (s : String) : String :=
  String.mk (rmTrailAux close s.data.length s.data)

/-- The bracket-matching scan of `clean_llm_response`: starting at the
first `[`, keep a nesting count and return the region up to the `]`
that balances it (`some`), or `Option.none` if the scan runs off the end. -/
def scanBr (depth : Nat) : List Char → Option (List Char)
  | [] => Option.none
  | c :: rest =>
      if c = '[' then
        match scanBr (depth + 1) rest with
        | some out => some (c :: out)
        | Option.none => Option.none
      else if c = ']' then
        if depth = 1 then some [c]
        else
          match scanBr (depth - 1) rest with
          | some out => some (c :: out)
          | Option.none => Option.none
      else
        match scanBr depth rest with
        | some out => some (c :: out)
        | Option.none => Option.none

/-- The "extract only the JSON part" step of `clean_llm_response`:
find the first `[`; if its bracket-matched `]` exists return that
substring, otherwise (no `[`, or the scan never balances) return the
input unchanged. -/
def extractJsonArray (s : String) : String :=
  let post := s.data.dropWhile (fun c => c ≠ '[')
  if post.isEmpty then s
  else
    match scanBr 0 post with
    | some arr => String.mk arr
    | Option.none => s

/-- `clean_llm_response` (app/graph/planner.py): strip one leading
```` ```json ```` and one trailing ```` ``` ```` fence, strip
whitespace, drop trailing commas before `]` and before the closing
brace, then cut to the first bracket-balanced array if one exists. -/
def clean_llm_response (raw : String) : String :=
  let r := if pyStartsWith raw "```json" then pyDropN raw 7 else raw
  let r := if pyEndsWith r "```" then pyDropRightN r 3 else r
  let r := pyStrip r
  let r := pyRmTrailingCommas ']' r
  let r := pyRmTrailingCommas '\x7d' r
  extractJsonArray r

/-- The four required step fields, in the order `validate_plan` checks
them. -/
def requiredFields : List String :=
  ["id", "type", "step", "success_criteria"]

/-- First required field missing from a step dict, if any. -/
def firstMissing (entries : List (String × PyVal)) : Option String :=
  requiredFields.find? (fun f => !pyHasKey entries f)

/-- Per-step loop of `validate_plan` (index `i` only feeds the error
text): each step must be a dict, have all four required fields, and
its `type` must be one of the two enum strings (a non-string `type`
fails the membership test exactly as in Python). -/
def validateSteps : Nat → List PyVal → Except String Unit
  | _, [] => .ok ()
  | i, st :: rest =>
      match st with
      | .dict entries =>
          match firstMissing entries with
          | some f => .error ("Step " ++ natToStr i ++ " missing required field: " ++ f)
          | Option.none =>
              match pyLookup entries "type" with
              | some (.str t) =>
                  if t = "browser_step" || t = "logic_step" then
                    validateSteps (i + 1) rest
                  else
                    .error ("Step " ++ natToStr i ++ " type must be \x27browser_step\x27 or \x27logic_step\x27")
              | _ => .error ("Step " ++ natToStr i ++ " type must be \x27browser_step\x27 or \x27logic_step\x27")
      | _ => .error ("Step " ++ natToStr i ++ " must be a dictionary")

/-- `validate_plan` (app/graph/planner.py): `.ok ()` models
`return True`, `.error msg` models `raise ValueError(msg)`. -/
def validate_plan (plan : PyVal) : Except String Unit :=
  match plan with
  | .list steps => validateSteps 0 steps
  | _ => .error "Plan must be a list"

/-- `create_fallback_plan` (app/graph/planner.py). -/
def create_fallback_plan (objective : String) : PyVal :=
  .list [.dict
    [("id", .int 1),
     ("type", .str "browser_step"),
     ("step", .str ("Execute objective: " ++ objective)),
     ("success_criteria", .str "Test completes successfully")]]

/-- Class of the exception a Python oracle invocation raises.
`generate_plan_with_llm` catches exactly
`(json.JSONDecodeError, ValueError, KeyError)`; `other` stands for any
class outside that tuple (e.g. a transport/connection error). -/
inductive PyExc where
  | jsonDecode
  | valueErr
  | keyErr
  | other

/-- Whether the planner's `except` clause catches this class. -/
def PyExc.catchable : PyExc → Bool
  | .other => false
  | _ => true

/-- An oracle behaviour: per attempt index, either the text of
`response.content` or the exception class the invocation raised. -/
def Oracle : Type := Nat → Except PyExc String

/-- An exception escaping a stage function. -/
inductive PlanCrash where
  | uncaught (e : PyExc)
  | unboundLocal

/-- One planner attempt after the oracle returned `content`:
`raw_output = response.content.strip()`, then `clean_llm_response`,
then `json.loads`, then `validate_plan`; `some plan` means the attempt
returns `plan`. -/
def planAttemptOk (content : String) : Option PyVal :=
  match json_loads (clean_llm_response (pyStrip content)) with
  | some p => if (validate_plan p).isOk then some p else Option.none
  | Option.none => Option.none

/-- The retry loop of `generate_plan_with_llm`: `i` is the attempt
index, `fuel` the attempts left (3 at entry), `rawBound` whether the
local `raw_output` has been assigned by some earlier successful
invocation.  Returns (number of oracle invocations, outcome).
Mirrors the source exactly, including: the `except` clause catches
only catchable classes; inside it, `raw_output[:200]` raises
`UnboundLocalError` (uncaught, modelled `.unboundLocal`) when no
invocation has yet returned; on the last attempt the fallback plan is
returned; the `return []` after the loop is the `fuel = 0` case. -/
def generatePlanLoop (oracle : Oracle) (objective : String) :
    Nat → Nat → Bool → Nat × Except PlanCrash PyVal
  | _, 0, _ => (0, .ok (.list []))
  | i, fuel+1, rawBound =>
      match oracle i with
      | .error e =>
          if e.catchable then
            if rawBound then
              if fuel = 0 then (1, .ok (create_fallback_plan objective))
              else
                let r := generatePlanLoop oracle objective (i + 1) fuel rawBound
                (r.1 + 1, r.2)
            else (1, .error .unboundLocal)
          else (1, .error (.uncaught e))
      | .ok content =>
          match planAttemptOk content with
          | some p => (1, .ok p)
          | Option.none =>
              if fuel = 0 then (1, .ok (create_fallback_plan objective))
              else
                let r := generatePlanLoop oracle objective (i + 1) fuel true
                (r.1 + 1, r.2)

/-- `generate_plan_with_llm` (app/graph/planner.py), `max_retries = 3`;
first component counts oracle invocations. -/
def generate_plan_with_llm (oracle : Oracle) (objective : String) :
    Nat × Except PlanCrash PyVal :=
  generatePlanLoop oracle objective 0 3 false

/-- `planner_node` (app/graph/planner.py): empty/absent objective
short-circuits to `state["plan"] = []`; otherwise the generated (or
fallback) plan is stored; an exception from `generate_plan_with_llm`
propagates (`.error`). -/
def planner_node (oracle : Oracle) (state : StateD) : Except PlanCrash StateD :=
  let obj := stGetD state "objective" (.str "")
  if pyFalsy obj then .ok (stSet state "plan" (.list []))
  else
    match generate_plan_with_llm oracle (pyToStr obj) with
    | (_, .ok p) => .ok (stSet state "plan" p)
    | (_, .error e) => .error e

/-- Four-digit lowercase hex of a codepoint, for JSON `\uXXXX`
escapes. -/
def hex4 (n : Nat) : String :=
  let d := fun (k : Nat) => "0123456789abcdef".data.getD (k % 16) '0'
  String.mk [d (n / 4096), d (n / 256), d (n / 16), d n]

/-- `json.dumps` escaping of one character (`ensure_ascii=True`). -/
def jsonEscapeChar (c : Char) : List Char :=
  if c = '"' then "\\\"".data
  else if c = '\\' then "\\\\".data
  else if c = '\n' then "\\n".data
  else if c = '\t' then "\\t".data
  else if c = '\r' then "\\r".data
  else if c.toNat < 32 || c.toNat > 126 then ("\\u" ++ hex4 c.toNat).data
  else [c]

/-- `json.dumps` escaping of a string body. -/
def jsonEscape (s : String) : String :=
  String.mk ((s.data.map jsonEscapeChar).flatten)

/-- Indentation of `json.dumps(..., indent=2)` at nesting level `lvl`. -/
def jpad (lvl : Nat) : String :=
  String.mk (List.replicate (2 * lvl) ' ')

mutual

/-- `json.dumps(v, indent=2)` rendered at nesting level `lvl`. -/
def dumpsVal (lvl : Nat) : PyVal → String
  | .str s => "\"" ++ jsonEscape s ++ "\""
  | .int n => intToStr n
  | .bool b => if b then "true" else "false"
  | .none => "null"
  | .list xs =>
      if xs.isEmpty then "[]"
      else "[\n" ++ dumpsItems (lvl + 1) xs ++ "\n" ++ jpad lvl ++ "]"
  | .dict es =>
      if es.isEmpty then "\x7b\x7d"
      else "\x7b\n" ++ dumpsEntries (lvl + 1) es ++ "\n" ++ jpad lvl ++ "\x7d"

/-- Array elements, one per line, joined by `",\n"`. -/
def dumpsItems (lvl : Nat) : List PyVal → String
  | [] => ""
  | [x] => jpad lvl ++ dumpsVal lvl x
  | x :: xs => jpad lvl ++ dumpsVal lvl x ++ ",\n" ++ dumpsItems lvl xs

/-- Object members, one per line, joined by `",\n"`. -/
def dumpsEntries (lvl : Nat) : List (String × PyVal) → String
  | [] => ""
  | [(k, v)] => jpad lvl ++ "\"" ++ jsonEscape k ++ "\": " ++ dumpsVal lvl v
  | (k, v) :: es =>
      jpad lvl ++ "\"" ++ jsonEscape k ++ "\": " ++ dumpsVal lvl v ++ ",\n"
        ++ dumpsEntries lvl es

end

/-- `json.dumps(plan, indent=2)` as used by the generator. -/
def json_dumps (v : PyVal) : String :=
  dumpsVal 0 v

/-- Truncate `s` at the first occurrence of `marker`:
`re.sub(marker + ".*", "", s, flags=re.DOTALL)` for a literal marker. -/
def truncAux (marker : List Char) : List Char → List Char
  | [] => []
  | c :: rest =>
      if listIsPref marker (c :: rest) then []
      else c :: truncAux marker rest

/-- String version of `truncAux`. -/
def pyTruncAt (marker : String) (s : String) : String :=
  String.mk (truncAux marker.data s.data)

/-- The response clean-up inside `generate_with_llm`
(app/graph/generator.py): `response.content.strip()`, removal of one
leading ```` ``` ````/```` ```python ```` fence and one trailing
```` ``` ```` fence (the regexes are unanchored to lines, so they act
only at the string's ends, which after the strip have no surrounding
whitespace), a final strip, then truncation at any of the four
"validator prompt text" markers (DOTALL `.*` erases to the end). -/
def cleanGenCode (content : String) : String :=
  let code := pyStrip content
  let code :=
    if pyStartsWith code "```python" then pyDropN code 9
    else if pyStartsWith code "```" then pyDropN code 3
    else code
  let code := pyStrip (if pyEndsWith code "```" then pyDropRightN code 3 else code)
  let code := pyTruncAt "\nCheck for errors" code
  let code := pyTruncAt "\nIf there are problems" code
  let code := pyTruncAt "\nIf it\x27s valid" code
  let code := pyTruncAt "\nReturn ONLY" code
  code

/-- `validate_generated_code` (app/graph/generator.py): required
import, required patterns, and absence of `headless=True`. -/
def validate_generated_code (code : String) : Bool :=
  strHas code "from playwright.sync_api import sync_playwright"
    && strHas code "with sync_playwright() as p:"
    && strHas code "browser = p.chromium.launch"
    && strHas code "page = browser.new_page()"
    && !strHas code "headless=True"

/-- Outcome of `generate_with_llm`: either the generated code string
or the failure-indicator dict
`\x7b"generation_failed": True, "needs_demonstration": True,
"error_message": ...\x7d`. -/
inductive GenOutcome where
  | failureDict
  | code (s : String)

/-- Retry loop of `generate_with_llm` (app/graph/generator.py):
`max_retries = 3`, no `try`/`except` anywhere, so an oracle exception
propagates (`.error`); an attempt whose cleaned output fails
`validate_generated_code` silently consumes an attempt; the final
failed attempt yields the failure dict; the `return ""` after the loop
is the `fuel = 0` case.  The plan/recorded-code only shape the prompt
and are absorbed into the oracle parameter. -/
def genLoop (oracle : Oracle) : Nat → Nat → Except PyExc GenOutcome
  | _, 0 => .ok (.code "")
  | i, fuel+1 =>
      match oracle i with
      | .error e => .error e
      | .ok content =>
          let code := cleanGenCode content
          if validate_generated_code code then .ok (.code code)
          else if fuel = 0 then .ok .failureDict
          else genLoop oracle (i + 1) fuel

/-- `generate_with_llm` (app/graph/generator.py). -/
def generate_with_llm (oracle : Oracle) : Except PyExc GenOutcome :=
  genLoop oracle 0 3

/-- The dict literal `generate_with_llm` returns on exhaustion, which
`generator_node` then returns AS the new state (source line
`return result`). -/
def generationFailedDict : StateD :=
  [("generation_failed", .bool true),
   ("needs_demonstration", .bool true),
   ("error_message", .str "Failed to generate valid code after 3 attempts")]

/-- Text of `create_recording_template` before the dumped plan. -/
def recTemplatePre : String :=
  "\"\"\"\nPlaywright script template for user demonstration.\nPlan: "

/-- Text of `create_recording_template` after the dumped plan. -/
def recTemplateSuf : String :=
  "\n\nTo complete this script:\n1. Run: playwright codegen --target python https://target-website.com\n2. Perform your actions in the browser\n3. Copy the generated code and replace the TODO section below\n\"\"\"\n\nfrom playwright.sync_api import sync_playwright\n\nwith sync_playwright() as p:\n    browser = p.chromium.launch(headless=False, slow_mo=1500)\n    page = browser.new_page()\n\n    print(\"Starting automation...\")\n\n    # TODO: Replace this section with your recorded code\n    page.goto(\"https://example.com\")\n    print(\"Navigated to example.com\")\n\n    # Add your recorded actions here\n    # Example:\n    # page.locator(\x27input[name=\"q\"]\x27).fill(\"search term\")\n    # page.locator(\x27input[name=\"q\"]\x27).press(\"Enter\")\n\n    print(\"Automation completed\")\n\n    input(\"Press Enter to close browser...\")\n    browser.close()\n"

/-- `create_recording_template` (app/graph/generator.py): the fixed
placeholder script with `json.dumps(plan, indent=2)` interpolated into
its docstring. -/
def create_recording_template (plan : PyVal) : String :=
  recTemplatePre ++ json_dumps plan ++ recTemplateSuf

/-- `generator_node` (app/graph/generator.py).  The
timestamp-and-slug execution folder is the parameter `execDir`; the
demonstrative-mode recorder interaction (`handle_codegen_recording`,
an external-process boundary) is the parameter `codegen`.  Returns the
new state plus the list of (path, text) file writes performed.  On the
generative-failure path the function returns the bare failure dict in
place of the state (source: `return result`). -/
def generator_node (oracle : Oracle) (codegen : PyVal → String)
    (execDir : String) (state : StateD) :
    Except PyExc (StateD × List (String × String)) :=
  let plan := stGetD state "plan" (.list [])
  let demonstrate := stGetD state "demonstrate" (.bool false)
  if pyFalsy plan then .ok (state, [])
  else
    let scriptPath := execDir ++ "/automation_script.py"
    let finish := fun (code : String) =>
      ((stSet (stSet state "script_path" (.str scriptPath))
          "execution_folder" (.str execDir)),
       [(scriptPath, code)])
    if !pyFalsy demonstrate then .ok (finish (codegen plan))
    else
      match generate_with_llm oracle with
      | .error e => .error e
      | .ok .failureDict => .ok (generationFailedDict, [])
      | .ok (.code c) => .ok (finish c)

/-- Per-line action of `clean_code_response` (app/graph/validator.py):
`re.sub(r"^```(python)?", "", ·, flags=re.MULTILINE)` removes a fence
marker at the start of each line, and `re.sub(r"```$", "", ·,
flags=re.MULTILINE)` removes one at the end of each line. -/
def cleanCodeLine (l : List Char) : List Char :=
  let l :=
    if listIsPref "```python".data l then l.drop 9
    else if listIsPref "```".data l then l.drop 3
    else l
  if listIsPref "```".data.reverse l.reverse then (l.take (l.length - 3)) else l

/-- `clean_code_response` (app/graph/validator.py). -/
def clean_code_response (raw : String) : String :=
  pyStrip (String.mk (joinNl ((splitNl raw.data).map cleanCodeLine)))

/-- `validate_playwright_code` (app/graph/validator.py): the fixed
checklist, issues accumulated in source order. -/
def validate_playwright_code (code : String) : List String :=
  (if !strHas code "import pytest" then ["Missing pytest import"] else [])
    ++ (if !strHas code "from playwright.sync_api import Page, expect" then
          ["Missing Playwright imports"] else [])
    ++ (if !strHas code "import agentql" then ["Missing AgentQL import"] else [])
    ++ (if strHas code "page = Page(" then
          ["Manual Page object creation - should use page fixture"] else [])
    ++ (if strHas code "assert page." then
          ["Using assert instead of expect() for page assertions"] else [])
    ++ (if strHas code "page.title" && !strHas code "expect(" then
          ["Direct page.title access without expect()"] else [])
    ++ (if strHas code "def test_" && !strHas code "page: Page" then
          ["Test function missing page: Page parameter"] else [])

/-- The assert-to-expect rewrite of one line in `apply_manual_fixes`
(the follow-up `to_have_title(` replacement in the source replaces the
text with itself and is the identity). -/
def fixAssertLine (l : String) : String :=
  if strHas l "assert page." then
    let l := pyReplace l "assert page." "expect(page).to_have_"
    if strHas l "title" then pyReplace l "to_have_title(" "to_have_title(" else l
  else l

/-- Line loop of `apply_manual_fixes`: before the first line
containing `def test_`, insert the import lines the whole original
`code` is missing plus a blank line; drop lines containing
`page = Page(`; rewrite `assert page.` lines. -/
def applyFixLines (code : String) (importsAdded : Bool) : List String → List String
  | [] => []
  | l :: rest =>
      let pre : List String :=
        if !importsAdded && strHas l "def test_" then
          (if !strHas code "import pytest" then ["import pytest"] else [])
            ++ (if !strHas code "from playwright.sync_api import Page, expect" then
                  ["from playwright.sync_api import Page, expect"] else [])
            ++ (if !strHas code "import agentql" then ["import agentql"] else [])
            ++ [""]
        else []
      let added := importsAdded || strHas l "def test_"
      if strHas l "page = Page(" then pre ++ applyFixLines code added rest
      else pre ++ [fixAssertLine l] ++ applyFixLines code added rest

/-- `apply_manual_fixes` (app/graph/validator.py); the `issues`
argument is unused in the source body and here. -/
def apply_manual_fixes (code : String) (issues : List String) : String :=
  let _ := issues
  String.mk (joinNl ((applyFixLines code false ((splitNl code.data).map String.mk)).map String.data))

/-- Retry loop of `review_code_with_llm` (app/graph/validator.py):
the bare `except Exception` catches every oracle failure (the attempt
is simply consumed); an attempt is returned only if its cleaned output
has zero `validate_playwright_code` issues; exhaustion returns the
failure marker `Option.none` (Python `None`). -/
def reviewLoop (oracle : Oracle) : Nat → Nat → Option String
  | _, 0 => Option.none
  | i, fuel+1 =>
      match oracle i with
      | .error _ => reviewLoop oracle (i + 1) fuel
      | .ok content =>
          let reviewed := clean_code_response content
          if validate_playwright_code reviewed = [] then some reviewed
          else reviewLoop oracle (i + 1) fuel

/-- `review_code_with_llm` (app/graph/validator.py), `max_retries = 3`.
`script` and `issues` only shape the prompt and are absorbed into the
oracle parameter. -/
def review_code_with_llm (oracle : Oracle) (script : String)
    (issues : List String) : Option String :=
  let _ := script
  let _ := issues
  reviewLoop oracle 0 3

/-- `validator_node` (app/graph/validator.py).  Returns the new state
plus the (path, text) file writes performed. -/
def validator_node (oracle : Oracle) (state : StateD) :
    StateD × List (String × String) :=
  let script := pyToStr (stGetD state "script_code" (.str ""))
  let scriptPath := stGetD state "script_path" .none
  if script = "" || pyFalsy scriptPath then (state, [])
  else
    let issues := validate_playwright_code script
    let reviewed :=
      if issues ≠ [] then
        match review_code_with_llm oracle script issues with
        | some r => r
        | Option.none => apply_manual_fixes script issues
      else
        match review_code_with_llm oracle script [] with
        | some r => r
        | Option.none => script
    (stSet state "script_code" (.str reviewed), [(pyToStr scriptPath, reviewed)])

/-- Retry loop of `validate_plan_with_llm` (app/graph/plan_validator.py),
`max_retries = 2`; the oracle's `.error` carries `str(e)` of the
caught exception (the bare `except Exception` catches everything).
Returns `(is_valid, feedback)`. -/
def planReviewLoop (oracle : Nat → Except String String) :
    Nat → Nat → Bool × String
  | _, 0 => (false, "Plan validation failed after retries")
  | i, fuel+1 =>
      match oracle i with
      | .error msg =>
          if fuel = 0 then (false, "Plan validation failed: " ++ msg)
          else planReviewLoop oracle (i + 1) fuel
      | .ok content =>
          let result := pyStrip content
          if pyStartsWith (pyUpper result) "VALID" then
            (true, "Plan validation passed")
          else if pyStartsWith (pyUpper result) "INVALID" then
            (false,
             if 6 < pyLen result then pyStrip (pyDropN result 6)
             else "Plan needs improvement")
          else if fuel = 0 then
            (false, "Unexpected validation response format: "
              ++ pyTakeN result 100 ++ "...")
          else planReviewLoop oracle (i + 1) fuel

/-- `validate_plan_with_llm` (app/graph/plan_validator.py). -/
def validate_plan_with_llm (oracle : Nat → Except String String) :
    Bool × String :=
  planReviewLoop oracle 0 2

/-- `plan_validator_node` (app/graph/plan_validator.py): no-op when
objective or plan is absent/falsy; an `invalid` verdict only annotates
the state. -/
def plan_validator_node (oracle : Nat → Except String String)
    (state : StateD) : StateD :=
  let objective := stGetD state "objective" (.str "")
  let plan := stGetD state "plan" (.list [])
  if pyFalsy objective || pyFalsy plan then state
  else
    let r := validate_plan_with_llm oracle
    if r.1 then state
    else
      stSet (stSet state "plan_validation_feedback" (.str r.2))
        "plan_potentially_invalid" (.bool true)

/-- Outcome of the `subprocess.run(["python", script_path], ...)`
call: normal completion with an exit code and captured streams, the
60-second timeout (`subprocess.TimeoutExpired`), or some other
exception with message `msg`. -/
inductive ExecOutcome where
  | completed (rc : Int) (out err : String)
  | timedOut
  | raised (msg : String)

/-- `run_script` (app/graph/compile.py): missing `script_path` yields
the `No script generated` result; otherwise the subprocess outcome is
classified into the `result` dict exactly as in the source (note: no
branch ever writes a `timed_out` key). -/
def run_script (exec : ExecOutcome) (state : StateD) : StateD :=
  let sp := stGetD state "script_path" .none
  if pyFalsy sp then
    stSet state "result"
      (.dict [("passed", .bool false), ("error", .str "No script generated")])
  else
    let p := pyToStr sp
    match exec with
    | .completed rc out err =>
        stSet state "result"
          (.dict [("passed", .bool (rc = 0)), ("stdout", .str out),
                  ("stderr", .str err), ("exit_code", .int rc),
                  ("script_path", .str p)])
    | .timedOut =>
        stSet state "result"
          (.dict [("passed", .bool false),
                  ("error", .str "Script timed out after 60 seconds"),
                  ("stdout", .str ""), ("stderr", .str "Timeout"),
                  ("exit_code", .int (-1)), ("script_path", .str p)])
    | .raised m =>
        stSet state "result"
          (.dict [("passed", .bool false),
                  ("error", .str ("Failed to run script: " ++ m)),
                  ("stdout", .str ""), ("stderr", .str m),
                  ("exit_code", .int (-1)), ("script_path", .str p)])

/-- A step that `validate_plan` accepts: a dict with the four required
fields whose `type` value is one of the two enum strings.  (Note what
is absent: no check that `id` is a positive integer, nor that ids are
unique across the plan.) -/
def stepWellFormed : PyVal → Bool
  | .dict es =>
      requiredFields.all (fun f => pyHasKey es f)
        && (match pyLookup es "type" with
            | some (.str t) => t = "browser_step" || t = "logic_step"
            | _ => false)
  | _ => false

/-- "The review oracle fails attempt `i`": the invocation raises, or
its cleaned output still has inspection issues. -/
def reviewFails (oracle : Oracle) (i : Nat) : Prop :=
  ∀ c, oracle i = .ok c →
    validate_playwright_code (clean_code_response c) ≠ []

/-- "Planner attempt `i` returns text that fails parse-or-validate"
(the loop's catchable, non-crashing failure mode). -/
def planAttemptFails (oracle : Oracle) (i : Nat) : Prop :=
  ∃ raw, oracle i = .ok raw ∧ planAttemptOk raw = Option.none

/-- JSON text that parses and validates to exactly
`create_fallback_plan "x"`; used to exhibit that a generated plan and
the untagged fallback can be identical values. -/
def fbJson : String :=
  "[\x7b\"id\": 1, \"type\": \"browser_step\", \"step\": \"Execute objective: x\", \"success_criteria\": \"Test completes successfully\"\x7d]"

/-- A state holding a schema-valid one-step plan, generative mode. -/
def c4state : StateD :=
  [("objective", .str "x"),
   ("plan", .list [.dict [("id", .int 1), ("type", .str "browser_step"),
                          ("step", .str "s"), ("success_criteria", .str "c")]]),
   ("demonstrate", .bool false)]

/-- The state the Plan Stage produces from the empty objective. -/
def stEmpty : StateD :=
  [("objective", .str ""), ("plan", .list [])]

/-- The `result` dict `run_script` writes when no script exists. -/
def noScriptResult : PyVal :=
  .dict [("passed", .bool false), ("error", .str "No script generated")]

/-- A script with zero `validate_playwright_code` issues. -/
def c7script : String :=
  "import pytest\nfrom playwright.sync_api import Page, expect\nimport agentql\n"

/-- A state carrying `c7script` and a script path. -/
def c7state : StateD :=
  [("script_code", .str c7script), ("script_path", .str "p.py")]

/-- A schema-valid plan whose step text mentions `headless=True`. -/
def headlessPlan : PyVal :=
  .list [.dict [("id", .int 1), ("type", .str "browser_step"),
                ("step", .str "use headless=True"), ("success_criteria", .str "c")]]

/-- A plan accepted by `validate_plan` with duplicate, non-positive
ids. -/
def dupIdPlan : PyVal :=
  .list [.dict [("id", .int 0), ("type", .str "browser_step"),
                ("step", .str "a"), ("success_criteria", .str "b")],
         .dict [("id", .int 0), ("type", .str "logic_step"),
                ("step", .str "c"), ("success_criteria", .str "d")]]

/-- A state with only a script path, for exercising `run_script`. -/
def c9state : StateD :=
  [("script_path", .str "s.py")]

/-- The entries of the `result` dict `run_script` builds on timeout. -/
def timeoutResultEntries : List (String × PyVal) :=
  [("passed", .bool false),
   ("error", .str "Script timed out after 60 seconds"),
   ("stdout", .str ""), ("stderr", .str "Timeout"),
   ("exit_code", .int (-1)), ("script_path", .str "s.py")]

theorem listHas_append_right (needle h₁ h₂ : List Char)
    (h : listHas needle h₂ = true) : listHas needle (h₁ ++ h₂) = true := by
  induction h₁ with
  | nil => simpa using h
  | cons a as ih =>
      simp only [List.cons_append, listHas, Bool.or_eq_true]
      exact Or.inr ih

theorem stLookup_stSet_self (st : StateD) (k : String) (v : PyVal) :
    stLookup (stSet st k v) k = some v := by
  induction st with
  | nil => simp [stSet, stLookup]
  | cons e rest ih =>
      obtain ⟨k', v'⟩ := e
      by_cases h : k' = k
      · simp [stSet, stLookup, h]
      · simpa [stSet, stLookup, List.find?, h] using ih

theorem firstMissing_none_iff (es : List (String × PyVal)) :
    firstMissing es = Option.none ↔
      requiredFields.all (fun f => pyHasKey es f) = true := by
  simp only [firstMissing, List.find?_eq_none, List.all_eq_true,
    Bool.not_eq_true']
  constructor
  · intro h f hf
    have := h f hf
    simpa using this
  · intro h f hf
    simpa using h f hf

theorem validateSteps_isOk (steps : List PyVal) (i : Nat) :
    (validateSteps i steps).isOk = steps.all stepWellFormed := by
  induction steps generalizing i with
  | nil => rfl
  | cons st rest ih =>
      cases st with
      | dict es =>
          rw [List.all_cons]
          cases hm : firstMissing es with
          | some f =>
              have hk : ¬ requiredFields.all (fun f => pyHasKey es f) = true := by
                intro hall
                rw [← firstMissing_none_iff] at hall
                simp [hall] at hm
              simp [validateSteps, hm, stepWellFormed, Except.isOk, Except.toBool,
                Bool.eq_false_iff.mpr hk]
          | none =>
              have hall := (firstMissing_none_iff es).mp hm
              cases ht : pyLookup es "type" with
              | none =>
                  simp [validateSteps, hm, ht, stepWellFormed, Except.isOk, Except.toBool]
              | some tv =>
                  cases tv with
                  | str t =>
                      by_cases h2 : (t = "browser_step" || t = "logic_step") = true
                      · simp [validateSteps, hm, ht, h2, stepWellFormed, hall, ih]
                      · simp [validateSteps, hm, ht, h2, stepWellFormed, Except.isOk,
                          Except.toBool, Bool.eq_false_iff.mpr h2]
                  | int n => simp [validateSteps, hm, ht, stepWellFormed, Except.isOk, Except.toBool]
                  | bool b => simp [validateSteps, hm, ht, stepWellFormed, Except.isOk, Except.toBool]
                  | none => simp [validateSteps, hm, ht, stepWellFormed, Except.isOk, Except.toBool]
                  | list xs => simp [validateSteps, hm, ht, stepWellFormed, Except.isOk, Except.toBool]
                  | dict es2 => simp [validateSteps, hm, ht, stepWellFormed, Except.isOk, Except.toBool]
      | str s => simp [validateSteps, stepWellFormed, Except.isOk, Except.toBool]
      | int n => simp [validateSteps, stepWellFormed, Except.isOk, Except.toBool]
      | bool b => simp [validateSteps, stepWellFormed, Except.isOk, Except.toBool]
      | none => simp [validateSteps, stepWellFormed, Except.isOk, Except.toBool]
      | list xs => simp [validateSteps, stepWellFormed, Except.isOk, Except.toBool]

/-- C6 counterexample: `validate_plan` accepts `dupIdPlan`, whose two
steps carry the same non-positive id `0`, so acceptance does not imply
positive or unique ids. -/
theorem C6_counterexample :
    validate_plan dupIdPlan = .ok ()
      ∧ (∃ s₁ s₂ rest, dupIdPlan = .list (s₁ :: s₂ :: rest)
          ∧ (∃ e₁, s₁ = .dict e₁ ∧ pyLookup e₁ "id" = some (.int 0))
          ∧ (∃ e₂, s₂ = .dict e₂ ∧ pyLookup e₂ "id" = some (.int 0))) := by
  refine ⟨rfl, ?_⟩
  refine ⟨_, _, [], rfl, ⟨_, rfl, ?_⟩, ⟨_, rfl, ?_⟩⟩ <;> rfl

/-- C6 (amended): a plan is accepted by `validate_plan` exactly when
it is a list of dicts each carrying the four required fields with
`type` in the two-value enum; the validator checks nothing about `id`
values (neither positivity nor uniqueness). -/
theorem C6_validate_plan_characterization (plan : PyVal) :
    (validate_plan plan).isOk = true ↔
      ∃ steps, plan = .list steps ∧ steps.all stepWellFormed = true := by
  cases plan with
  | list steps =>
      rw [validate_plan, validateSteps_isOk]
      constructor
      · intro h
        exact ⟨steps, rfl, h⟩
      · rintro ⟨steps', heq, hall⟩
        cases heq
        exact hall
  | str s => simp [validate_plan, Except.isOk, Except.toBool]
  | int n => simp [validate_plan, Except.isOk, Except.toBool]
  | bool b => simp [validate_plan, Except.isOk, Except.toBool]
  | none => simp [validate_plan, Except.isOk, Except.toBool]
  | dict es => simp [validate_plan, Except.isOk, Except.toBool]

theorem planLoop_calls_le (oracle : Oracle) (obj : String) :
    ∀ (fuel i : Nat) (rb : Bool), (generatePlanLoop oracle obj i fuel rb).1 ≤ fuel := by
  intro fuel
  induction fuel with
  | zero => intro i rb; simp [generatePlanLoop]
  | succ f ih =>
      intro i rb
      simp only [generatePlanLoop]
      cases h : oracle i with
      | error e =>
          by_cases hc : e.catchable = true
          · cases rb with
            | false => simp [hc]
            | true =>
                by_cases hf : f = 0
                · simp [hc, hf]
                · have := ih (i + 1) true
                  simp only [hc, hf, if_true, if_false]
                  simpa using Nat.succ_le_succ this
          · simp [Bool.eq_false_iff.mpr hc]
      | ok content =>
          cases ha : planAttemptOk content with
          | some p => simp [ha]
          | none =>
              by_cases hf : f = 0
              · simp [ha, hf]
              · have := ih (i + 1) true
                simp only [ha, hf, if_true, if_false]
                simpa using Nat.succ_le_succ this

theorem planLoop_success (oracle : Oracle) (obj : String) :
    ∀ (k fuel i : Nat) (rb : Bool), k < fuel →
      (∀ j, j < k → planAttemptFails oracle (i + j)) →
      ∀ raw p, oracle (i + k) = .ok raw → planAttemptOk raw = some p →
      generatePlanLoop oracle obj i fuel rb = (k + 1, .ok p) := by
  intro k
  induction k with
  | zero =>
      intro fuel i rb hlt hfail raw p hok hatt
      cases fuel with
      | zero => omega
      | succ f =>
          rw [Nat.add_zero] at hok
          simp [generatePlanLoop, hok, hatt]
  | succ k ih =>
      intro fuel i rb hlt hfail raw p hok hatt
      cases fuel with
      | zero => omega
      | succ f =>
          obtain ⟨raw0, hok0, hatt0⟩ := hfail 0 (Nat.succ_pos k)
          rw [Nat.add_zero] at hok0
          have hf : f ≠ 0 := by omega
          have hshift : ∀ j, j < k → planAttemptFails oracle (i + 1 + j) := by
            intro j hj
            have heq : i + 1 + j = i + (j + 1) := by omega
            rw [heq]
            exact hfail (j + 1) (by omega)
          have hok' : oracle (i + 1 + k) = .ok raw := by
            have heq : i + 1 + k = i + (k + 1) := by omega
            rw [heq]; exact hok
          have hrec := ih f (i + 1) true (by omega) hshift raw p hok' hatt
          simp [generatePlanLoop, hok0, hatt0, hf, hrec]

theorem planLoop_exhaust (oracle : Oracle) (obj : String) :
    ∀ (fuel i : Nat) (rb : Bool), 0 < fuel →
      (∀ j, j < fuel → planAttemptFails oracle (i + j)) →
      generatePlanLoop oracle obj i fuel rb
        = (fuel, .ok (create_fallback_plan obj)) := by
  intro fuel
  induction fuel with
  | zero => intro i rb h; omega
  | succ f ih =>
      intro i rb _ hfail
      obtain ⟨raw0, hok0, hatt0⟩ := hfail 0 (Nat.succ_pos f)
      rw [Nat.add_zero] at hok0
      by_cases hf : f = 0
      · subst hf
        simp [generatePlanLoop, hok0, hatt0]
      · have hshift : ∀ j, j < f → planAttemptFails oracle (i + 1 + j) := by
          intro j hj
          have heq : i + 1 + j = i + (j + 1) := by omega
          rw [heq]
          exact hfail (j + 1) (by omega)
        have hrec := ih (i + 1) true (by omega) hshift
        simp [generatePlanLoop, hok0, hatt0, hf, hrec]

/-- C1: the Plan Stage retry loop calls the oracle at most 3 times
(`max_attempts = 3`); if the first `k` attempts return text that fails
extraction-plus-validation and attempt index `k` (0-based, so the
`k+1`-st call) yields text whose cleaned parse passes `validate_plan`,
the loop returns exactly that plan after `k + 1` oracle calls; and if
all 3 attempts fail that way, it returns
`create_fallback_plan objective` after exactly 3 calls.  (The claim's
further assertion that the fallback result is *tagged* so callers can
distinguish it is refuted separately: the fallback is returned as a
plain plan value.) -/
theorem C1_retry_loop :
    (∀ (oracle : Oracle) (obj : String),
        (generate_plan_with_llm oracle obj).1 ≤ 3)
    ∧ (∀ (oracle : Oracle) (obj : String) (k : Nat), k < 3 →
        (∀ j, j < k → planAttemptFails oracle j) →
        ∀ raw p, oracle k = .ok raw → planAttemptOk raw = some p →
        generate_plan_with_llm oracle obj = (k + 1, .ok p))
    ∧ (∀ (oracle : Oracle) (obj : String),
        (∀ j, j < 3 → planAttemptFails oracle j) →
        generate_plan_with_llm oracle obj
          = (3, .ok (create_fallback_plan obj))) := by
  refine ⟨fun o s => planLoop_calls_le o s 3 0 false, ?_, ?_⟩
  · intro o s k hk hfail raw p hok hatt
    exact planLoop_success o s k 3 0 false hk
      (fun j hj => by simpa using hfail j hj) raw p (by simpa using hok) hatt
  · intro o s hfail
    exact planLoop_exhaust o s 3 0 false (by omega)
      (fun j hj => by simpa using hfail j hj)

/-- C1 witness: a stub oracle that is valid on its first attempt makes
the loop return that plan after exactly one call. -/
theorem C1_retry_loop_witness :
    (0 : Nat) < 3
    ∧ planAttemptOk fbJson = some (create_fallback_plan "x")
    ∧ generate_plan_with_llm (fun _ => .ok fbJson) "x"
        = (1, .ok (create_fallback_plan "x")) := by
  refine ⟨by decide, rfl, ?_⟩
  exact C1_retry_loop.2.1 (fun _ => .ok fbJson) "x" 0 (by decide)
    (fun j hj => absurd hj (Nat.not_lt_zero j)) fbJson
    (create_fallback_plan "x") rfl rfl

/-- C1 counterexample (to the "tagged as a fallback outcome, so
callers can distinguish" part): an oracle whose first output is the
JSON of the fallback plan succeeds after 1 call, an always-junk oracle
exhausts 3 calls and falls back — yet both runs return the *same*
value, so the fallback is not distinguishable by callers. -/
theorem C1_counterexample :
    (generate_plan_with_llm (fun _ => .ok fbJson) "x").1 = 1
    ∧ (generate_plan_with_llm (fun _ => .ok "junk") "x").1 = 3
    ∧ (generate_plan_with_llm (fun _ => .ok fbJson) "x").2
        = (generate_plan_with_llm (fun _ => .ok "junk") "x").2 :=
  ⟨rfl, rfl, rfl⟩

theorem planAttemptOk_valid (raw : String) (p : PyVal)
    (h : planAttemptOk raw = some p) : (validate_plan p).isOk = true := by
  unfold planAttemptOk at h
  cases hj : json_loads (clean_llm_response (pyStrip raw)) with
  | none => rw [hj] at h; exact absurd h (by simp)
  | some q =>
      rw [hj] at h
      dsimp only at h
      split at h
      · cases h
        assumption
      · exact absurd h (by simp)

theorem validate_fallback_ok (s : String) :
    (validate_plan (create_fallback_plan s)).isOk = true := rfl

theorem planLoop_valid (oracle : Oracle) (obj : String) :
    ∀ (fuel i : Nat) (rb : Bool), 0 < fuel →
      (∀ i', ∃ raw, oracle i' = .ok raw) →
      ∃ p, (generatePlanLoop oracle obj i fuel rb).2 = .ok p
        ∧ (validate_plan p).isOk = true := by
  intro fuel
  induction fuel with
  | zero => intro i rb h; omega
  | succ f ih =>
      intro i rb _ hall
      obtain ⟨raw, hok⟩ := hall i
      cases ha : planAttemptOk raw with
      | some p =>
          exact ⟨p, by simp [generatePlanLoop, hok, ha],
            planAttemptOk_valid raw p ha⟩
      | none =>
          by_cases hf : f = 0
          · subst hf
            exact ⟨create_fallback_plan obj,
              by simp [generatePlanLoop, hok, ha], validate_fallback_ok obj⟩
          · obtain ⟨p, h2, hv⟩ := ih (i + 1) true (by omega) hall
            exact ⟨p, by simp [generatePlanLoop, hok, ha, hf, h2], hv⟩

/-- C2 (amended): when the objective is a non-empty string and every
oracle attempt returns text (no exceptions), `planner_node` returns a
state whose `plan` passes `validate_plan` (hence every step passes the
schema check), and the fallback plan is itself a one-step (non-empty)
schema-valid plan.  The original claim's stronger assertion that the
stored plan is always *non-empty* is false — `validate_plan` accepts
the empty array, see the counterexample — so non-emptiness is dropped
here. -/
theorem C2_planner_schema_valid
    (oracle : Oracle) (state : StateD) (s : String)
    (hobj : stGetD state "objective" (.str "") = .str s)
    (hne : s ≠ "")
    (hall : ∀ i, ∃ raw, oracle i = .ok raw) :
    (∃ st', planner_node oracle state = .ok st'
        ∧ ∃ p, stLookup st' "plan" = some p ∧ (validate_plan p).isOk = true)
    ∧ (validate_plan (create_fallback_plan s)).isOk = true
    ∧ (∃ step, create_fallback_plan s = .list [step]) := by
  refine ⟨?_, validate_fallback_ok s, ⟨_, rfl⟩⟩
  obtain ⟨p, h2, hv⟩ :=
    planLoop_valid oracle s 3 0 false (by omega) hall
  refine ⟨stSet state "plan" p, ?_, p, stLookup_stSet_self state "plan" p, hv⟩
  unfold planner_node
  rw [hobj]
  have hfal : pyFalsy (.str s) = false := by
    simp [pyFalsy, hne]
  dsimp only
  rw [hfal]
  simp only [Bool.false_eq_true, if_false, pyToStr]
  have hG : generate_plan_with_llm oracle s
      = ((generate_plan_with_llm oracle s).1, Except.ok p) := by
    unfold generate_plan_with_llm
    rw [← h2]
  rw [hG]

/-- C2 witness: concrete non-empty objective with an always-junk (but
always-returning) oracle. -/
theorem C2_planner_schema_valid_witness :
    stGetD [("objective", PyVal.str "x")] "objective" (.str "") = .str "x"
    ∧ ("x" : String) ≠ ""
    ∧ ((∃ st', planner_node (fun _ => .ok "junk") [("objective", .str "x")]
            = .ok st'
          ∧ ∃ p, stLookup st' "plan" = some p ∧ (validate_plan p).isOk = true)
        ∧ (validate_plan (create_fallback_plan "x")).isOk = true
        ∧ (∃ step, create_fallback_plan "x" = .list [step])) :=
  ⟨rfl, by decide,
    C2_planner_schema_valid (fun _ => .ok "junk") [("objective", .str "x")]
      "x" rfl (by decide) (fun _ => ⟨"junk", rfl⟩)⟩

/-- C2 counterexample: with the non-empty objective `"x"`, an oracle
whose first output is `"[]"` makes `planner_node` store the *empty*
plan (the empty array passes `validate_plan`), refuting "returns a
state whose plan is a non-empty sequence". -/
theorem C2_counterexample :
    planner_node (fun _ => .ok "[]") [("objective", .str "x")]
      = .ok [("objective", .str "x"), ("plan", .list [])]
    ∧ stLookup [("objective", PyVal.str "x"), ("plan", PyVal.list [])] "plan"
        = some (.list []) :=
  ⟨rfl, rfl⟩

theorem genLoop_ok (oracle : Oracle) :
    ∀ (fuel i : Nat), (∀ i', ∃ s, oracle i' = .ok s) →
      ∃ g, genLoop oracle i fuel = .ok g := by
  intro fuel
  induction fuel with
  | zero => intro i _; exact ⟨.code "", rfl⟩
  | succ f ih =>
      intro i hall
      obtain ⟨s, hok⟩ := hall i
      by_cases hv : validate_generated_code (cleanGenCode s) = true
      · exact ⟨.code (cleanGenCode s), by simp [genLoop, hok, hv]⟩
      · by_cases hf : f = 0
        · refine ⟨.failureDict, ?_⟩
          subst hf
          simp [genLoop, hok, hv]
        · obtain ⟨g, hg⟩ := ih (i + 1) hall
          exact ⟨g, by simp [genLoop, hok, hv, hf, hg]⟩

/-- C3 (amended): the two generative retry loops return normally
whenever every oracle invocation returns text; but contrary to the
original claim, an oracle *exception* is not uniformly absorbed: the
planner's `except` clause covers only JSON/validation error classes,
and `generate_with_llm` has no `try` at all, so a transport exception
propagates out of the stage (see the counterexample). -/
theorem C3_total_when_oracle_returns
    (oracleP oracleG : Oracle) (obj : String)
    (hP : ∀ i, ∃ s, oracleP i = .ok s)
    (hG : ∀ i, ∃ s, oracleG i = .ok s) :
    (∃ p, (generate_plan_with_llm oracleP obj).2 = .ok p)
    ∧ (∃ g, generate_with_llm oracleG = .ok g) := by
  constructor
  · obtain ⟨p, h2, _⟩ := planLoop_valid oracleP obj 3 0 false (by omega) hP
    exact ⟨p, h2⟩
  · exact genLoop_ok oracleG 3 0 hG

/-- C3 witness: constant text-returning oracles. -/
theorem C3_total_when_oracle_returns_witness :
    (∀ i : Nat, ∃ s, (fun _ : Nat => (Except.ok "t" : Except PyExc String)) i
        = .ok s)
    ∧ ((∃ p, (generate_plan_with_llm (fun _ => .ok "t") "x").2 = .ok p)
        ∧ (∃ g, generate_with_llm (fun _ => .ok "t") = .ok g)) :=
  ⟨fun _ => ⟨"t", rfl⟩,
    C3_total_when_oracle_returns (fun _ => .ok "t") (fun _ => .ok "t") "x"
      (fun _ => ⟨"t", rfl⟩) (fun _ => ⟨"t", rfl⟩)⟩

/-- C3 counterexample: an oracle invocation exception of a class
outside `(json.JSONDecodeError, ValueError, KeyError)` — e.g. a
transport error — crashes both stages on the very first attempt
(one oracle call, no retry): `generate_with_llm` catches nothing and
re-raises it, and `generate_plan_with_llm`'s `except` clause does not
match it. -/
theorem C3_counterexample :
    generate_with_llm (fun _ => .error .other) = .error .other
    ∧ (generate_plan_with_llm (fun _ => .error .other) "x").2
        = .error (.uncaught .other)
    ∧ (generate_plan_with_llm (fun _ => .error .other) "x").1 = 1 :=
  ⟨rfl, rfl, rfl⟩

/-- C4 (code bug): on the generative-failure path `generator_node`
returns the bare failure dict in place of the accumulated state: with
a state holding `objective` and a schema-valid `plan` and an oracle
whose output never passes the shape check, the returned "state" is
exactly `generationFailedDict`, which contains neither `objective` nor
`plan` — although the source's own comment on that `return result`
line says "Return the state with failure flags". -/
theorem C4_generator_drops_predecessor_fields :
    generator_node (fun _ => .ok "bad") (fun _ => "") "d" c4state
      = .ok (generationFailedDict, [])
    ∧ stHas c4state "objective" = true
    ∧ stHas c4state "plan" = true
    ∧ stHas generationFailedDict "objective" = false
    ∧ stHas generationFailedDict "plan" = false :=
  ⟨rfl, rfl, rfl, rfl, rfl⟩

/-- C5 (amended): for the empty objective the Plan Stage records the
empty plan, and plan review, script synthesis and script repair all
return the state unchanged (and write no files); the Execution Stage,
however, does extend the state: it adds
`result = \x7b"passed": False, "error": "No script generated"\x7d`. -/
theorem C5_empty_objective_frame
    (op : Oracle) (ov : Nat → Except String String) (og orv : Oracle)
    (cg : PyVal → String) (dir : String) (ex : ExecOutcome) :
    planner_node op [("objective", .str "")] = .ok stEmpty
    ∧ plan_validator_node ov stEmpty = stEmpty
    ∧ generator_node og cg dir stEmpty = .ok (stEmpty, [])
    ∧ validator_node orv stEmpty = (stEmpty, [])
    ∧ run_script ex stEmpty
        = [("objective", .str ""), ("plan", .list []),
           ("result", noScriptResult)] :=
  ⟨rfl, rfl, rfl, rfl, rfl⟩

/-- C5 counterexample: the Execution Stage does mutate the state
beyond the empty-plan marker — it adds the `result` field, refuting
"no subsequent stage adds any field to ... the pipeline state". -/
theorem C5_counterexample :
    stHas stEmpty "result" = false
    ∧ run_script .timedOut stEmpty
        = [("objective", .str ""), ("plan", .list []),
           ("result", noScriptResult)]
    ∧ stHas (run_script .timedOut stEmpty) "result" = true :=
  ⟨rfl, rfl, rfl⟩

theorem reviewLoop_none (oracle : Oracle)
    (hfail : ∀ j, reviewFails oracle j) :
    ∀ (fuel i : Nat), reviewLoop oracle i fuel = Option.none := by
  intro fuel
  induction fuel with
  | zero => intro i; rfl
  | succ f ih =>
      intro i
      cases h : oracle i with
      | error e => simp [reviewLoop, h, ih]
      | ok c =>
          have hne := hfail i c h
          simp [reviewLoop, h, hne, ih]

/-- C7: if the static inspection finds zero issues in the input script
and the final-polish oracle review fails on every attempt (each
invocation either raises or returns text whose cleaned form still has
issues), `validator_node` keeps the original script: the `script_code`
field is rewritten with the *same* text and the single file write puts
the original text at the script path. -/
theorem C7_keeps_valid_script_on_review_failure
    (oracle : Oracle) (state : StateD) (script path : String)
    (hsc : stGetD state "script_code" (.str "") = .str script)
    (hne : script ≠ "")
    (hsp : stGetD state "script_path" .none = .str path)
    (hpne : path ≠ "")
    (hclean : validate_playwright_code script = [])
    (hfail : ∀ j, reviewFails oracle j) :
    validator_node oracle state
      = (stSet state "script_code" (.str script), [(path, script)]) := by
  have hrl : reviewLoop oracle 0 3 = Option.none := reviewLoop_none oracle hfail 3 0
  unfold validator_node
  rw [hsc, hsp]
  dsimp only [pyToStr]
  have h1 : (decide (script = "") : Bool) = false := by simp [hne]
  have h2 : pyFalsy (.str path) = false := by simp [pyFalsy, hpne]
  simp only [h1, h2, Bool.or_self, Bool.false_eq_true, if_false, hclean,
    ne_eq, not_true_eq_false, reduceIte, review_code_with_llm, hrl]

/-- C7 witness: a concrete zero-issue script, a concrete path, and an
always-junk oracle. -/
theorem C7_keeps_valid_script_witness :
    validate_playwright_code c7script = []
    ∧ validator_node (fun _ => .ok "junk") c7state
        = (stSet c7state "script_code" (.str c7script), [("p.py", c7script)]) :=
  ⟨rfl,
    C7_keeps_valid_script_on_review_failure (fun _ => .ok "junk") c7state
      c7script "p.py" rfl (by decide) rfl (by decide) rfl
      (fun j c hc => by cases hc; decide)⟩

/-- C10: for every input script, issue list and oracle behaviour, the
oracle-driven repair loop returns either the failure marker (`None`)
or a script on which `validate_playwright_code` reports zero issues. -/
theorem C10_review_none_or_inspection_clean
    (oracle : Oracle) (script : String) (issues : List String) :
    review_code_with_llm oracle script issues = Option.none
    ∨ ∃ s, review_code_with_llm oracle script issues = some s
        ∧ validate_playwright_code s = [] := by
  unfold review_code_with_llm
  suffices h : ∀ (fuel i : Nat), reviewLoop oracle i fuel = Option.none
      ∨ ∃ s, reviewLoop oracle i fuel = some s
          ∧ validate_playwright_code s = [] from h 3 0
  intro fuel
  induction fuel with
  | zero => intro i; exact Or.inl rfl
  | succ f ih =>
      intro i
      cases h : oracle i with
      | error e => simpa [reviewLoop, h] using ih (i + 1)
      | ok c =>
          by_cases hv : validate_playwright_code (clean_code_response c) = []
          · exact Or.inr ⟨clean_code_response c, by simp [reviewLoop, h, hv], hv⟩
          · simpa [reviewLoop, h, hv] using ih (i + 1)

theorem strHas_append_right (a b needle : String)
    (h : strHas b needle = true) : strHas (a ++ b) needle = true := by
  unfold strHas at h ⊢
  rw [String.data_append]
  exact listHas_append_right _ _ _ h

/-- C8 (amended): the placeholder template passes the generative-mode
shape validator exactly when the text `headless=True` does not occur
in it; the template's fixed part always supplies the four required
patterns, so the only way to fail is a plan whose
`json.dumps(plan, indent=2)` carries `headless=True` into the
docstring (see the counterexample).  For every plan free of that
substring the template validates, which covers the spec's
recorder-produces-no-file scenario. -/
theorem C8_template_valid_iff_no_headless (plan : PyVal) :
    validate_generated_code (create_recording_template plan)
      = !strHas (create_recording_template plan) "headless=True" := by
  have h1 : strHas (create_recording_template plan)
      "from playwright.sync_api import sync_playwright" = true := by
    unfold create_recording_template
    exact strHas_append_right _ _ _ rfl
  have h2 : strHas (create_recording_template plan)
      "with sync_playwright() as p:" = true := by
    unfold create_recording_template
    exact strHas_append_right _ _ _ rfl
  have h3 : strHas (create_recording_template plan)
      "browser = p.chromium.launch" = true := by
    unfold create_recording_template
    exact strHas_append_right _ _ _ rfl
  have h4 : strHas (create_recording_template plan)
      "page = browser.new_page()" = true := by
    unfold create_recording_template
    exact strHas_append_right _ _ _ rfl
  unfold validate_generated_code
  rw [h1, h2, h3, h4]
  simp

/-- C8 counterexample: a schema-valid plan whose step text contains
`headless=True` is dumped verbatim into the template's docstring, so
the template fails `validate_generated_code` — refuting "for every
plan input, ... passes the generative-mode shape validator". -/
theorem C8_counterexample :
    (validate_plan headlessPlan).isOk = true
    ∧ strHas (json_dumps headlessPlan) "headless=True" = true
    ∧ validate_generated_code (create_recording_template headlessPlan) = false :=
  ⟨rfl, rfl, rfl⟩

/-- C9 (amended): with a script path present, `run_script` classifies
completion with exit code `rc` into a `result` whose `passed` is
exactly `rc = 0` and which carries the exit code and both captured
streams; the timeout is a distinct returned outcome (not a crash)
whose `result` carries `passed = False`,
`error = "Script timed out after 60 seconds"`, `stderr = "Timeout"`
and `exit_code = -1` — but, contrary to the original claim, no
`timed_out` boolean field exists (see the counterexample). -/
theorem C9_run_script_classification
    (state : StateD) (path : String)
    (hsp : stGetD state "script_path" .none = .str path)
    (hne : path ≠ "") :
    (∀ (rc : Int) (out err : String),
        stLookup (run_script (.completed rc out err) state) "result"
          = some (.dict [("passed", .bool (rc = 0)), ("stdout", .str out),
                         ("stderr", .str err), ("exit_code", .int rc),
                         ("script_path", .str path)]))
    ∧ stLookup (run_script .timedOut state) "result"
        = some (.dict [("passed", .bool false),
                       ("error", .str "Script timed out after 60 seconds"),
                       ("stdout", .str ""), ("stderr", .str "Timeout"),
                       ("exit_code", .int (-1)), ("script_path", .str path)]) := by
  have hfal : pyFalsy (.str path) = false := by simp [pyFalsy, hne]
  constructor
  · intro rc out err
    unfold run_script
    rw [hsp]
    dsimp only [pyToStr]
    rw [hfal]
    simp only [Bool.false_eq_true, if_false]
    exact stLookup_stSet_self state "result" _
  · unfold run_script
    rw [hsp]
    dsimp only [pyToStr]
    rw [hfal]
    simp only [Bool.false_eq_true, if_false]
    exact stLookup_stSet_self state "result" _

/-- C9 witness: a failing exit code 2 yields `passed = (2 = 0)`
(false) with the code and streams captured. -/
theorem C9_run_script_classification_witness :
    stGetD c9state "script_path" .none = .str "s.py"
    ∧ ("s.py" : String) ≠ ""
    ∧ stLookup (run_script (.completed 2 "o" "e") c9state) "result"
        = some (.dict [("passed", .bool ((2 : Int) = 0)), ("stdout", .str "o"),
                       ("stderr", .str "e"), ("exit_code", .int 2),
                       ("script_path", .str "s.py")]) :=
  ⟨rfl, by decide,
    (C9_run_script_classification c9state "s.py" rfl (by decide)).1 2 "o" "e"⟩

/-- C9 counterexample: the timeout `result` dict has an `error` field
but *no* `timed_out` key, refuting "the ExecutionResult carries a
timed_out boolean". -/
theorem C9_counterexample :
    run_script .timedOut c9state
      = [("script_path", .str "s.py"), ("result", .dict timeoutResultEntries)]
    ∧ pyHasKey timeoutResultEntries "timed_out" = false
    ∧ pyHasKey timeoutResultEntries "error" = true :=
  ⟨rfl, rfl, rfl⟩
